import Mathlib

/-!
Verification of the AS-video-maker audio pipeline and operation poller.

The definitions below are a shallow embedding of the TypeScript source:

* `atob`, `decodeBase64`, `bytesToInt16`, `pcmDecodePath` model the base64 →
  `Uint8Array` → `Int16Array` decode path of `VideoPlayer.tsx`
  (`decode`, `handleDownloadAudio`) and `pcmToAudioBuffer`.
* `writeWavHeader` models the WAV container builder of `VideoPlayer.tsx`.
* `pollLoop` / `pollVideoOperation` model the long-running-operation poller of
  the gemini service module, with the scripted remote responses made explicit.
* `handleSubmit` models the orchestrator of `App.tsx`.
* `mixAudio` models the offline mixing graph built in the variant `App`
  module (voice at unity gain, music through a 0.2 gain node).

JavaScript numbers holding audio samples are modelled as rationals; byte and
integer arithmetic is carried out on `Nat`/`Int` with explicit wrap-around
where the source relies on typed-array semantics.
-/

/-- Models a 16-bit little-endian read from two bytes, as performed by
`new Int16Array(raw.buffer)`: the unsigned value `lo + 256 * hi` reinterpreted
as a signed 16-bit integer. -/
def readInt16 (lo hi : Nat) : Int :=
  if lo % 256 + 256 * (hi % 256) < 32768 then ((lo % 256 + 256 * (hi % 256) : Nat) : Int)
  else ((lo % 256 + 256 * (hi % 256) : Nat) : Int) - 65536

/-- Models `view.setInt16(offset, s, true)`: the two little-endian bytes of a
16-bit value, wrapping modulo 2^16 as `DataView.setInt16` does. -/
def int16ToBytes (s : Int) : List Nat :=
  [(s % 65536).toNat % 256, (s % 65536).toNat / 256]

/-- Models `new Int16Array(buffer)` over a byte buffer: `none` when the byte
length is not a multiple of 2, for which the JS typed-array constructor throws
`RangeError`; otherwise the list of signed 16-bit little-endian values. -/
def bytesToInt16 : List Nat → Option (List Int)
  | [] => some []
  | [_] => none
  | lo :: hi :: rest => (bytesToInt16 rest).map (fun tl => readInt16 lo hi :: tl)

/-- Little-endian bytes of a 16-bit write, as `view.setUint16(_, x, true)`. -/
def u16le (x : Nat) : List Nat := [x % 256, x / 256 % 256]

/-- Little-endian bytes of a 32-bit write, as `view.setUint32(_, x, true)`. -/
def u32le (x : Nat) : List Nat :=
  [x % 256, x / 256 % 256, x / 65536 % 256, x / 16777216 % 256]

/-- The 44-byte RIFF/WAVE/fmt/data header written by `writeWavHeader` in
`VideoPlayer.tsx` for `n` samples at the given sample rate and channel
count (PCM format tag 1, 16 bits per sample). -/
def wavHeader (n sr nc : Nat) : List Nat :=
  [82, 73, 70, 70] ++ u32le (36 + n * 2) ++ [87, 65, 86, 69] ++
  [102, 109, 116, 32] ++ u32le 16 ++ u16le 1 ++ u16le nc ++ u32le sr ++
  u32le (sr * nc * 2) ++ u16le (nc * 2) ++ u16le 16 ++
  [100, 97, 116, 97] ++ u32le (n * 2)

/-- Models `writeWavHeader(samples, sampleRate, numChannels)` from
`VideoPlayer.tsx`: the 44-byte header followed by each `Int16Array` sample
written verbatim with `setInt16` little-endian. -/
def writeWavHeader (samples : List Int) (sampleRate numChannels : Nat) : List Nat :=
  wavHeader samples.length sampleRate numChannels ++ samples.flatMap int16ToBytes

theorem readInt16_int16ToBytes (s : Int) (h1 : -32768 ≤ s) (h2 : s ≤ 32767) :
    readInt16 ((s % 65536).toNat % 256) ((s % 65536).toNat / 256) = s := by
  have hnn : (0 : Int) ≤ s % 65536 := Int.emod_nonneg s (by norm_num)
  have hu : ((s % 65536).toNat : Int) = s % 65536 := Int.toNat_of_nonneg hnn
  unfold readInt16
  split <;> omega

theorem int16ToBytes_readInt16 (lo hi : Nat) (hl : lo < 256) (hh : hi < 256) :
    int16ToBytes (readInt16 lo hi) = [lo, hi] := by
  unfold int16ToBytes readInt16
  split <;> (simp only [List.cons.injEq, and_true]; constructor) <;> omega

theorem bytesToInt16_flatMap (samples : List Int)
    (h : ∀ s ∈ samples, -32768 ≤ s ∧ s ≤ 32767) :
    bytesToInt16 (samples.flatMap int16ToBytes) = some samples := by
  induction samples with
  | nil => rfl
  | cons s rest ih =>
    have hs := h s (by simp)
    have hrest : ∀ x ∈ rest, -32768 ≤ x ∧ x ≤ 32767 := fun x hx => h x (by simp [hx])
    rw [List.flatMap_cons,
      show int16ToBytes s = [(s % 65536).toNat % 256, (s % 65536).toNat / 256] from rfl]
    show bytesToInt16 ((s % 65536).toNat % 256 :: (s % 65536).toNat / 256 ::
      rest.flatMap int16ToBytes) = some (s :: rest)
    rw [show bytesToInt16 ((s % 65536).toNat % 256 :: (s % 65536).toNat / 256 ::
        rest.flatMap int16ToBytes) =
      (bytesToInt16 (rest.flatMap int16ToBytes)).map
        (fun tl => readInt16 ((s % 65536).toNat % 256) ((s % 65536).toNat / 256) :: tl)
      from rfl]
    rw [ih hrest, readInt16_int16ToBytes s hs.1 hs.2]
    rfl

theorem flatMap_of_bytesToInt16 (bytes : List Nat) (samples : List Int)
    (hb : ∀ b ∈ bytes, b < 256) (h : bytesToInt16 bytes = some samples) :
    samples.flatMap int16ToBytes = bytes := by
  induction bytes using bytesToInt16.induct generalizing samples with
  | case1 =>
    simp only [bytesToInt16, Option.some.injEq] at h
    subst h; rfl
  | case2 b =>
    rw [show bytesToInt16 [b] = none from rfl] at h
    exact Option.noConfusion h
  | case3 lo hi rest ih =>
    simp only [bytesToInt16] at h
    cases hrest : bytesToInt16 rest with
    | none => rw [hrest] at h; exact Option.noConfusion h
    | some tl =>
      rw [hrest] at h
      simp only [Option.map_some', Option.some.injEq] at h
      subst h
      have hlo : lo < 256 := hb lo (by simp)
      have hhi : hi < 256 := hb hi (by simp)
      have htl := ih tl (fun b hb2 => hb b (by simp [hb2])) hrest
      simp [List.flatMap_cons, htl, int16ToBytes_readInt16 lo hi hlo hhi]

theorem bytesToInt16_odd (bytes : List Nat) (h : bytes.length % 2 = 1) :
    bytesToInt16 bytes = none := by
  induction bytes using bytesToInt16.induct with
  | case1 => simp at h
  | case2 => rfl
  | case3 lo hi rest ih =>
    have hr : rest.length % 2 = 1 := by simp [List.length_cons] at h; omega
    simp [bytesToInt16, ih hr]

theorem wavHeader_length (n sr nc : Nat) : (wavHeader n sr nc).length = 44 := by
  simp [wavHeader, u16le, u32le]

theorem writeWavHeader_drop44 (samples : List Int) (sr nc : Nat) :
    (writeWavHeader samples sr nc).drop 44 = samples.flatMap int16ToBytes := by
  unfold writeWavHeader
  rw [← wavHeader_length samples.length sr nc, List.drop_left]

/-- Tests a character against the ASCII whitespace set that both JS `trim`
and forgiving-base64 strip. -/
def isJsWs (c : Char) : Bool :=
  c.toNat = 9 || c.toNat = 10 || c.toNat = 12 || c.toNat = 13 || c.toNat = 32

/-- Strips up to two trailing base64 padding characters when the input length
is a multiple of 4, per the forgiving-base64 algorithm behind `atob`. -/
def stripPad (cs : List Char) : List Char :=
  if cs.length % 4 = 0 then
    match cs.reverse with
    | '=' :: '=' :: rest => rest.reverse
    | '=' :: rest => rest.reverse
    | _ => cs
  else cs

/-- Value of a base64 alphabet character, `none` for anything else. -/
def b64Val (c : Char) : Option Nat :=
  if 'A' ≤ c ∧ c ≤ 'Z' then some (c.toNat - 65)
  else if 'a' ≤ c ∧ c ≤ 'z' then some (c.toNat - 97 + 26)
  else if '0' ≤ c ∧ c ≤ '9' then some (c.toNat - 48 + 52)
  else if c = '+' then some 62
  else if c = '/' then some 63
  else none

/-- Reassembles 6-bit groups into bytes: 4 sextets give 3 bytes, a trailing
pair gives 1 byte and a trailing triple gives 2 bytes. -/
def sextetsToBytes : List Nat → List Nat
  | a :: b :: c :: d :: rest =>
      (a * 4 + b / 16) :: ((b % 16) * 16 + c / 4) :: ((c % 4) * 64 + d) :: sextetsToBytes rest
  | [a, b] => [a * 4 + b / 16]
  | [a, b, c] => [a * 4 + b / 16, (b % 16) * 16 + c / 4]
  | _ => []

def atobCore (cs : List Char) : Option (List Nat) :=
  if cs.length % 4 = 1 then none else (cs.mapM b64Val).map sextetsToBytes

/-- Models the browser `atob` (forgiving-base64 decode): strips ASCII
whitespace and padding, rejects malformed input with `none` (the browser
throws `InvalidCharacterError`), and otherwise yields the decoded bytes.
The source's `decode` copies `charCodeAt` of each output character into a
`Uint8Array`, which is the identity on these byte values. -/
def atob (s : String) : Option (List Nat) :=
  atobCore (stripPad (s.data.filter (fun c => !isJsWs c)))

/-- Models the PCM decode path shared by `handleDownloadAudio` and
`pcmToAudioBuffer`: `decode(base64)` followed by `new Int16Array(raw.buffer)`.
An odd decoded byte length makes the typed-array constructor throw
`RangeError`; invalid base64 makes `atob` throw. -/
def pcmDecodePath (b64 : String) : Except String (List Int) :=
  match atob b64 with
  | none => .error ("InvalidCharacterError: invalid base64")
  | some bytes =>
    match bytesToInt16 bytes with
    | none => .error ("RangeError: byte length of Int16Array should be a multiple of 2")
    | some s => .ok s

/-- Models `String.prototype.trim` on the ASCII whitespace actually present
in this code base. -/
def strTrim (s : String) : String :=
  ⟨((s.data.dropWhile isJsWs).reverse.dropWhile isJsWs).reverse⟩

/-- Checks whether `pat` occurs as a contiguous run at the front of `t`. -/
def leadEq : List Char → List Char → Bool
  | [], _ => true
  | _ :: _, [] => false
  | p :: ps, t :: ts => p == t && leadEq ps ts

/-- Checks whether `pat` occurs contiguously anywhere in the text. -/
def hasSub (pat : List Char) : List Char → Bool
  | [] => leadEq pat []
  | t :: ts => leadEq pat (t :: ts) || hasSub pat ts

/-- Models `String.prototype.includes`. -/
def strContains (s pat : String) : Bool := hasSub pat.data s.data

theorem leadEq_self_append (pat t : List Char) : leadEq pat (pat ++ t) = true := by
  induction pat with
  | nil => rfl
  | cons p ps ih => simp [leadEq, ih]

theorem hasSub_mid (pre pat suff : List Char) : hasSub pat (pre ++ (pat ++ suff)) = true := by
  induction pre with
  | nil =>
    cases pat with
    | nil => cases suff <;> simp [hasSub, leadEq]
    | cons p ps =>
      simp only [List.nil_append, hasSub, Bool.or_eq_true]
      exact Or.inl (leadEq_self_append (p :: ps) suff)
  | cons a pre ih => simp [hasSub, ih]

/-- Models an `Operation` handle from the video-generation API: the completion
flag, the optional job-reported error message, and the download URI carried in
`response.generatedVideos[0].video.uri` on success. -/
structure Operation where
  done : Bool
  error : Option String
  uri : Option String
deriving DecidableEq

/-- One scripted outcome of `ai.operations.getVideosOperation`: either an
updated `Operation` or a rejected promise (transport failure). -/
inductive PollResponse where
  | ok (op : Operation)
  | transportError
deriving DecidableEq

/-- Result of the `while (!currentOperation.done)` loop of
`pollVideoOperation`, over a finite script of remote responses:
`finished` when the loop observed a completed operation, `transportFailed`
when a poll request rejected, `exhausted` when the script ran out while the
operation was still pending (the real loop would keep waiting). -/
inductive LoopResult where
  | finished (final : Operation) (pollsIssued : Nat) (remaining : List PollResponse)
  | transportFailed (pollsIssued : Nat) (remaining : List PollResponse)
  | exhausted (pollsIssued : Nat)
deriving DecidableEq

/-- The polling loop of `pollVideoOperation`: while the current operation is
not done, it sleeps, then issues one status-refresh request consuming the
next scripted response; a rejected request exits the loop immediately. -/
def pollLoop (op : Operation) (responses : List PollResponse) (n : Nat) : LoopResult :=
  match responses with
  | [] => if op.done then .finished op n [] else .exhausted n
  | r :: rest =>
    if op.done then .finished op n (r :: rest)
    else
      match r with
      | .transportError => .transportFailed (n + 1) rest
      | .ok newOp => pollLoop newOp rest (n + 1)

/-- The operation state current at the moment each status-refresh request is
issued by `pollLoop`, in order. -/
def pollTrace (op : Operation) (responses : List PollResponse) : List Operation :=
  match responses with
  | [] => []
  | r :: rest =>
    if op.done then []
    else
      match r with
      | .transportError => [op]
      | .ok newOp => op :: pollTrace newOp rest

def LoopResult.polls : LoopResult → Nat
  | .finished _ n _ => n
  | .transportFailed n _ => n
  | .exhausted n => n

theorem pollLoop_polls (op : Operation) (responses : List PollResponse) (n : Nat) :
    (pollLoop op responses n).polls = n + (pollTrace op responses).length := by
  induction responses generalizing op n with
  | nil => by_cases h : op.done <;> simp [pollLoop, pollTrace, h, LoopResult.polls]
  | cons r rest ih =>
    by_cases h : op.done
    · simp [pollLoop, pollTrace, h, LoopResult.polls]
    · cases r with
      | transportError => simp [pollLoop, pollTrace, h, LoopResult.polls]
      | ok newOp => simp [pollLoop, pollTrace, h, ih]; omega

theorem pollTrace_not_done (op : Operation) (responses : List PollResponse) :
    ∀ o ∈ pollTrace op responses, o.done = false := by
  induction responses generalizing op with
  | nil => simp [pollTrace]
  | cons r rest ih =>
    by_cases h : op.done
    · simp [pollTrace, h]
    · cases r with
      | transportError => simp [pollTrace, h]
      | ok newOp =>
        intro o ho
        simp only [pollTrace, h, Bool.false_eq_true, if_false, List.mem_cons] at ho
        rcases ho with rfl | ho
        · simpa using h
        · exact ih newOp o ho

/-- Terminal observation of a modelled `pollVideoOperation` run. -/
inductive PollOutcome where
  | success (final : Operation)
  | failure (message : String)
  | pending
deriving DecidableEq

/-- Lifecycle of the 5-second progress-message `setInterval` timer over one
run: never created (the function threw before `setInterval`), still running
when the run is suspended, or cancelled by `clearInterval`. A progress
callback can only fire after the function exits if the timer is `running`. -/
inductive TimerState where
  | notCreated
  | running
  | cancelled
deriving DecidableEq

/-- Observable summary of one `pollVideoOperation` run: its outcome, how many
status-refresh requests it issued, the state of the progress timer when the
function returned or threw (or when the response script was exhausted), and
the scripted responses it never consumed. -/
structure PollRun where
  outcome : PollOutcome
  pollsIssued : Nat
  timer : TimerState
  remaining : List PollResponse
deriving DecidableEq

/-- Models `pollVideoOperation` from the gemini service module: the missing
API-key guard, the progress timer, the polling loop, `clearInterval` in the
catch handler and after the loop, the job-reported-error check, and the
returned final operation. -/
def pollVideoOperation (apiKeySet : Bool) (op : Operation)
    (responses : List PollResponse) : PollRun :=
  if !apiKeySet then
    { outcome := .failure ("API_KEY environment variable not set."), pollsIssued := 0,
      timer := .notCreated, remaining := responses }
  else
    match pollLoop op responses 0 with
    | .exhausted n =>
      { outcome := .pending, pollsIssued := n, timer := .running, remaining := [] }
    | .transportFailed n rest =>
      { outcome := .failure ("Failed while checking video generation status."),
        pollsIssued := n, timer := .cancelled, remaining := rest }
    | .finished final n rest =>
      match final.error with
      | some msg =>
        { outcome := .failure ("Video generation failed: " ++ msg),
          pollsIssued := n, timer := .cancelled, remaining := rest }
      | none =>
        { outcome := .success final, pollsIssued := n, timer := .cancelled, remaining := rest }

theorem pollLoop_done (op : Operation) (responses : List PollResponse)
    (hd : op.done = true) : pollLoop op responses 0 = .finished op 0 responses := by
  cases responses <;> simp [pollLoop, hd]

/-- C5: fed the status-refresh response sequence [not-done, not-done,
done(success)] from a not-done Operation, `pollVideoOperation` reaches DONE
only after consuming exactly three status-refresh requests and returns the
final Operation payload unchanged. -/
theorem pollVideoOperation_three_polls (o0 o1 o2 o3 : Operation)
    (h0 : o0.done = false) (h1 : o1.done = false) (h2 : o2.done = false)
    (h3 : o3.done = true) (he : o3.error = none) :
    pollVideoOperation true o0 [.ok o1, .ok o2, .ok o3] =
      { outcome := .success o3, pollsIssued := 3, timer := .cancelled, remaining := [] } := by
  have hL : pollLoop o0 [.ok o1, .ok o2, .ok o3] 0 = .finished o3 3 [] := by
    simp [pollLoop, h0, h1, h2, h3]
  simp [pollVideoOperation, hL, he]

theorem pollVideoOperation_three_polls_witness :
    pollVideoOperation true ⟨false, none, none⟩
      [.ok ⟨false, none, none⟩, .ok ⟨false, none, none⟩, .ok ⟨true, none, some ("u")⟩] =
      { outcome := .success ⟨true, none, some ("u")⟩, pollsIssued := 3,
        timer := .cancelled, remaining := [] } :=
  pollVideoOperation_three_polls ⟨false, none, none⟩ ⟨false, none, none⟩
    ⟨false, none, none⟩ ⟨true, none, some ("u")⟩ rfl rfl rfl rfl rfl

/-- C6: on every exit path of `pollVideoOperation` (any outcome other than a
still-pending suspended run) the progress-message timer is not left running;
and a transport error on any poll attempt immediately yields failure with no
further poll attempt consumed and the timer cancelled, so no further progress
callback can fire. -/
theorem pollVideoOperation_timer_cancelled_on_exit (apiKeySet : Bool)
    (op : Operation) (responses : List PollResponse) :
    ((pollVideoOperation apiKeySet op responses).outcome ≠ PollOutcome.pending →
      (pollVideoOperation apiKeySet op responses).timer ≠ TimerState.running) ∧
    (∀ n rest, pollLoop op responses 0 = LoopResult.transportFailed n rest →
      apiKeySet = true →
      (pollVideoOperation apiKeySet op responses).outcome =
        PollOutcome.failure ("Failed while checking video generation status.") ∧
      (pollVideoOperation apiKeySet op responses).pollsIssued = n ∧
      (pollVideoOperation apiKeySet op responses).remaining = rest ∧
      (pollVideoOperation apiKeySet op responses).timer = TimerState.cancelled) := by
  constructor
  · intro hout
    cases apiKeySet with
    | false => simp [pollVideoOperation]
    | true =>
      unfold pollVideoOperation at hout ⊢
      cases hL : pollLoop op responses 0 with
      | finished final n rest =>
        cases herr : final.error <;> simp [hL, herr]
      | transportFailed n rest => simp [hL]
      | exhausted n => simp [hL] at hout
  · intro n rest hL hkey
    subst hkey
    simp [pollVideoOperation, hL]

theorem pollVideoOperation_timer_cancelled_on_exit_witness :
    (pollVideoOperation true ⟨false, none, none⟩
        [PollResponse.ok ⟨false, none, none⟩, PollResponse.transportError,
         PollResponse.ok ⟨true, none, none⟩]).timer = TimerState.cancelled ∧
    (pollVideoOperation true ⟨false, none, none⟩
        [PollResponse.ok ⟨false, none, none⟩, PollResponse.transportError,
         PollResponse.ok ⟨true, none, none⟩]).pollsIssued = 2 ∧
    (pollVideoOperation true ⟨false, none, none⟩
        [PollResponse.ok ⟨false, none, none⟩, PollResponse.transportError,
         PollResponse.ok ⟨true, none, none⟩]).remaining =
      [PollResponse.ok ⟨true, none, none⟩] := by
  have h := (pollVideoOperation_timer_cancelled_on_exit true ⟨false, none, none⟩
    [PollResponse.ok ⟨false, none, none⟩, PollResponse.transportError,
     PollResponse.ok ⟨true, none, none⟩]).2 2
    [PollResponse.ok ⟨true, none, none⟩] (by decide) rfl
  exact ⟨h.2.2.2, h.2.1, h.2.2.1⟩

/-- C7 (amended): a job-reported failure with remote reason r surfaces the
message "Video generation failed: " ++ r, which contains r and contains the
marker "generation failed: "; a transport failure surfaces the fixed message
"Failed while checking video generation status.", which does not contain that
marker — the two cases are distinguishable, but the transport message is not
the literal "status check failed" the claim states. -/
theorem pollVideoOperation_failure_messages (op : Operation)
    (responses : List PollResponse) :
    (∀ final n rest r, pollLoop op responses 0 = LoopResult.finished final n rest →
      final.error = some r →
      (pollVideoOperation true op responses).outcome =
        PollOutcome.failure ("Video generation failed: " ++ r) ∧
      strContains ("Video generation failed: " ++ r) r = true ∧
      strContains ("Video generation failed: " ++ r) ("generation failed: ") = true) ∧
    (∀ n rest, pollLoop op responses 0 = LoopResult.transportFailed n rest →
      (pollVideoOperation true op responses).outcome =
        PollOutcome.failure ("Failed while checking video generation status.")) ∧
    strContains ("Failed while checking video generation status.")
      ("generation failed: ") = false := by
  refine ⟨?_, ?_, by decide⟩
  · intro final n rest r hL herr
    refine ⟨by simp [pollVideoOperation, hL, herr], ?_, ?_⟩
    · show hasSub r.data ("Video generation failed: " ++ r).data = true
      rw [String.data_append]
      have := hasSub_mid ("Video generation failed: ").data r.data []
      simpa using this
    · show hasSub ("generation failed: ").data ("Video generation failed: " ++ r).data = true
      rw [String.data_append]
      have := hasSub_mid ("Video ").data ("generation failed: ").data r.data
      simpa using this
  · intro n rest hL
    simp [pollVideoOperation, hL]

theorem pollVideoOperation_failure_messages_witness :
    (pollVideoOperation true ⟨false, none, none⟩
        [PollResponse.ok ⟨true, some ("quota exceeded"), none⟩]).outcome =
      PollOutcome.failure ("Video generation failed: quota exceeded") ∧
    strContains ("Video generation failed: quota exceeded") ("quota exceeded") = true ∧
    (pollVideoOperation true ⟨false, none, none⟩ [PollResponse.transportError]).outcome =
      PollOutcome.failure ("Failed while checking video generation status.") := by
  have h1 := (pollVideoOperation_failure_messages ⟨false, none, none⟩
    [PollResponse.ok ⟨true, some ("quota exceeded"), none⟩]).1
    ⟨true, some ("quota exceeded"), none⟩ 1 [] ("quota exceeded") (by decide) rfl
  have h2 := (pollVideoOperation_failure_messages ⟨false, none, none⟩
    [PollResponse.transportError]).2.1 1 [] (by decide)
  exact ⟨h1.1, h1.2.1, h2⟩

/-- C7 (counterexample): on a transport failure the surfaced message is
"Failed while checking video generation status.", not the literal
"status check failed" stated by the claim. -/
theorem pollVideoOperation_transport_message_counterexample :
    (pollVideoOperation true ⟨false, none, none⟩ [PollResponse.transportError]).outcome =
      PollOutcome.failure ("Failed while checking video generation status.") ∧
    ("Failed while checking video generation status." : String) ≠ ("status check failed") := by
  exact ⟨rfl, by decide⟩

/-- C8: a status-refresh request is issued only in a state whose completion
flag is false (every entry of the poll trace is not-done, and the number of
requests issued equals the trace length); once the flag is observed true the
operation is terminal: starting from a done Operation, zero further requests
are issued and the response script is left untouched. -/
theorem pollVideoOperation_polls_only_while_not_done (op : Operation)
    (responses : List PollResponse) :
    (∀ o ∈ pollTrace op responses, o.done = false) ∧
    (pollVideoOperation true op responses).pollsIssued = (pollTrace op responses).length ∧
    (op.done = true → (pollVideoOperation true op responses).pollsIssued = 0 ∧
      (pollVideoOperation true op responses).remaining = responses) := by
  refine ⟨pollTrace_not_done op responses, ?_, ?_⟩
  · have h := pollLoop_polls op responses 0
    unfold pollVideoOperation
    cases hL : pollLoop op responses 0 with
    | finished final n rest =>
      rw [hL] at h
      cases herr : final.error <;> simpa [herr, LoopResult.polls] using h
    | transportFailed n rest =>
      rw [hL] at h
      simpa [LoopResult.polls] using h
    | exhausted n =>
      rw [hL] at h
      simpa [LoopResult.polls] using h
  · intro hd
    have hL := pollLoop_done op responses hd
    cases herr : op.error <;> simp [pollVideoOperation, hL, herr]

theorem pollVideoOperation_polls_only_while_not_done_witness :
    (pollVideoOperation true ⟨true, none, some ("u")⟩
        [PollResponse.transportError]).pollsIssued = 0 ∧
    (pollVideoOperation true ⟨true, none, some ("u")⟩
        [PollResponse.transportError]).remaining = [PollResponse.transportError] :=
  (pollVideoOperation_polls_only_while_not_done ⟨true, none, some ("u")⟩
    [PollResponse.transportError]).2.2 rfl

/-- C10: for an Operation already done and carrying no error,
`pollVideoOperation` issues zero status-refresh requests and returns the
input Operation unchanged, with the progress timer created and cancelled. -/
theorem pollVideoOperation_done_no_polls (op : Operation)
    (responses : List PollResponse) (hd : op.done = true) (he : op.error = none) :
    pollVideoOperation true op responses =
      { outcome := .success op, pollsIssued := 0, timer := .cancelled,
        remaining := responses } := by
  simp [pollVideoOperation, pollLoop_done op responses hd, he]

theorem pollVideoOperation_done_no_polls_witness :
    pollVideoOperation true ⟨true, none, some ("u")⟩ [PollResponse.transportError] =
      { outcome := .success ⟨true, none, some ("u")⟩, pollsIssued := 0,
        timer := .cancelled, remaining := [PollResponse.transportError] } :=
  pollVideoOperation_done_no_polls ⟨true, none, some ("u")⟩
    [PollResponse.transportError] rfl rfl

/-- UI-visible state mutated by `handleSubmit` in `App.tsx`. -/
structure AppState where
  isLoading : Bool
  loadingMessage : String
  error : Option String
  hasApiKey : Bool
  videoUrl : Option String
  audioData : Option String
deriving DecidableEq

/-- Scripted outcomes of the remote calls one `handleSubmit` run performs:
the `generateAudio` result, the `generateVideo` result, the poll responses,
whether `process.env.API_KEY` is set, whether the final video fetch returns
ok, and the object URL created for the downloaded blob. -/
structure AppReq where
  apiKeySet : Bool
  audioResult : Except String String
  videoStart : Except String Operation
  pollResponses : List PollResponse
  fetchOk : Bool
  objectUrl : String

/-- How one `handleSubmit` run ended: rejected by the empty-prompt guard
before any state change, completed normally, caught an error (the catch
block ran), or suspended forever awaiting a poll that never settles. -/
inductive RunOutcome where
  | rejected
  | completed
  | failed
  | hung
deriving DecidableEq

/-- Models `e.message || 'An unknown error occurred.'`. -/
def jsErrMessage (msg : String) : String :=
  if msg = "" then "An unknown error occurred." else msg

/-- Models the catch/finally blocks of `handleSubmit`: sets the error banner
text, downgrades to the invalid-key message (revoking the cached key flag)
when the message mentions a missing entity, and clears the loading flag. -/
def failRun (st : AppState) (msg : String) : AppState × RunOutcome :=
  if strContains (jsErrMessage msg) ("Requested entity was not found") then
    ({ st with
        error := some ("Your API key is invalid or missing permissions. Please select a valid key.")
        hasApiKey := false
        isLoading := false }, .failed)
  else
    ({ st with
        error := some (jsErrMessage msg)
        isLoading := false }, .failed)

/-- Truthiness of `finalOperation.response?.generatedVideos?.[0]?.video?.uri`:
present and not the empty string. -/
def uriOk (op : Operation) : Bool :=
  match op.uri with
  | some l => l != ""
  | none => false

/-- Models `handleSubmit` from `App.tsx`: the empty-prompt guard, resetting
loading/error/result state, the optional audio generation step, video
generation, polling, final asset fetch, and the catch/finally handling. -/
def handleSubmit (st0 : AppState) (prompt script : String) (req : AppReq) :
    AppState × RunOutcome :=
  if strTrim prompt = "" then
    ({ st0 with error := some ("Please enter a video prompt.") }, .rejected)
  else
    match (if strTrim script = "" then Except.ok none else
        (if req.apiKeySet then req.audioResult else
          Except.error ("API_KEY environment variable not set.")).map some) with
    | .error e =>
      failRun { st0 with
          isLoading := true
          error := none
          videoUrl := none
          audioData := none
          loadingMessage := "Generating voice-over audio..." } e
    | .ok audioOpt =>
      match (if req.apiKeySet then req.videoStart else
          Except.error ("API_KEY environment variable not set.")) with
      | .error e =>
        failRun { st0 with
            isLoading := true
            error := none
            videoUrl := none
            audioData := audioOpt
            loadingMessage := "Starting video generation process..." } e
      | .ok op =>
        match (pollVideoOperation req.apiKeySet op req.pollResponses).outcome with
        | .pending =>
          ({ st0 with
              isLoading := true
              error := none
              videoUrl := none
              audioData := audioOpt
              loadingMessage := "Video is rendering... this may take a few minutes." }, .hung)
        | .failure e =>
          failRun { st0 with
              isLoading := true
              error := none
              videoUrl := none
              audioData := audioOpt
              loadingMessage := "Video is rendering... this may take a few minutes." } e
        | .success finalOp =>
          if uriOk finalOp && req.apiKeySet then
            if req.fetchOk then
              ({ st0 with
                  error := none
                  videoUrl := some req.objectUrl
                  audioData := audioOpt
                  loadingMessage := "Fetching final video..."
                  isLoading := false }, .completed)
            else
              failRun { st0 with
                  isLoading := true
                  error := none
                  videoUrl := none
                  audioData := audioOpt
                  loadingMessage := "Fetching final video..." } ("Failed to download the generated video.")
          else
            failRun { st0 with
                isLoading := true
                error := none
                videoUrl := none
                audioData := audioOpt
                loadingMessage := "Video is rendering... this may take a few minutes." } ("Video generation did not return a valid download link.")

theorem failRun_fields (st : AppState) (msg : String) :
    (failRun st msg).1.isLoading = false ∧ (failRun st msg).1.videoUrl = st.videoUrl ∧
    (failRun st msg).1.audioData = st.audioData ∧
    (failRun st msg).1.error ≠ none ∧ (failRun st msg).2 = .failed := by
  unfold failRun
  split <;> simp

/-- C1 (amended): every `handleSubmit` run that ends in failure aborts with
the loading flag cleared, no video result handle set, and the error banner
set — but an audio result produced before the failing step remains set (it is
cleared only at the start of the next request). -/
theorem handleSubmit_failure_clears_state (st0 : AppState) (prompt script : String)
    (req : AppReq) :
    (handleSubmit st0 prompt script req).2 = RunOutcome.failed →
    (handleSubmit st0 prompt script req).1.isLoading = false ∧
    (handleSubmit st0 prompt script req).1.videoUrl = none ∧
    (handleSubmit st0 prompt script req).1.error ≠ none := by
  unfold handleSubmit
  split
  · intro h
    simp at h
  · split
    · intro _
      refine ⟨(failRun_fields _ _).1, ?_, (failRun_fields _ _).2.2.2.1⟩
      rw [(failRun_fields _ _).2.1]
    · split
      · intro _
        refine ⟨(failRun_fields _ _).1, ?_, (failRun_fields _ _).2.2.2.1⟩
        rw [(failRun_fields _ _).2.1]
      · split
        · intro h
          simp at h
        · intro _
          refine ⟨(failRun_fields _ _).1, ?_, (failRun_fields _ _).2.2.2.1⟩
          rw [(failRun_fields _ _).2.1]
        · split
          · split
            · intro h
              simp at h
            · intro _
              refine ⟨(failRun_fields _ _).1, ?_, (failRun_fields _ _).2.2.2.1⟩
              rw [(failRun_fields _ _).2.1]
          · intro _
            refine ⟨(failRun_fields _ _).1, ?_, (failRun_fields _ _).2.2.2.1⟩
            rw [(failRun_fields _ _).2.1]

theorem handleSubmit_failure_clears_state_witness :
    (handleSubmit ⟨false, ("init"), none, true, none, none⟩ ("a cat") ("hello")
      ⟨true, .ok ("QUJD"), .error ("boom"), [], true, ("blob:v")⟩).1.isLoading = false ∧
    (handleSubmit ⟨false, ("init"), none, true, none, none⟩ ("a cat") ("hello")
      ⟨true, .ok ("QUJD"), .error ("boom"), [], true, ("blob:v")⟩).1.videoUrl = none ∧
    (handleSubmit ⟨false, ("init"), none, true, none, none⟩ ("a cat") ("hello")
      ⟨true, .ok ("QUJD"), .error ("boom"), [], true, ("blob:v")⟩).1.error ≠ none :=
  handleSubmit_failure_clears_state ⟨false, ("init"), none, true, none, none⟩
    ("a cat") ("hello") ⟨true, .ok ("QUJD"), .error ("boom"), [], true, ("blob:v")⟩
    (by decide)

/-- C1 (counterexample): a run whose audio step succeeds and whose video
start then fails ends in failure yet keeps the audio result handle set, so
the claim that no partial results are kept is false on the code. -/
theorem handleSubmit_keeps_audio_counterexample :
    (handleSubmit ⟨false, ("init"), none, true, none, none⟩ ("a cat") ("hello")
      ⟨true, .ok ("QUJD"), .error ("boom"), [], true, ("blob:v")⟩).2 = RunOutcome.failed ∧
    (handleSubmit ⟨false, ("init"), none, true, none, none⟩ ("a cat") ("hello")
      ⟨true, .ok ("QUJD"), .error ("boom"), [], true, ("blob:v")⟩).1.audioData =
      some ("QUJD") := by
  decide

/-- Mono audio buffer: the sample rate recorded on the buffer and the channel
data, one rational per frame. -/
structure AudioBuf where
  sampleRate : Nat
  samples : List ℚ

/-- Models `pcmToAudioBuffer` from the variant `App` module (and the
equivalent loop in `VideoPlayer.tsx`): each decoded 16-bit sample is
normalized by dividing by 32768, and the buffer is created at the hard-coded
24 kHz rate of the TTS output. -/
def pcmToAudioBuffer (pcm : List Int) : AudioBuf :=
  { sampleRate := 24000
    samples := pcm.map (fun s => (s : ℚ) / 32768) }

/-- Models the offline mixing graph of `handleSubmit` in the variant `App`
module under equal source and context rates: a mono
`OfflineAudioContext(1, max(voiceBuffer.length, musicBuffer.length),
audioContext.sampleRate)`, the voice source connected straight to the
destination and the music source routed through a gain node fixed at 0.2.
`ctxSampleRate` is `audioContext.sampleRate` at the call site; that context
is created with no sampleRate option, so it is the device default, not the
voice buffer's 24 kHz. Out-of-range frames contribute silence. -/
def mixAudio (voiceBuffer musicBuffer : AudioBuf) (ctxSampleRate : Nat) : AudioBuf :=
  { sampleRate := ctxSampleRate
    samples := (List.range (max voiceBuffer.samples.length musicBuffer.samples.length)).map
      (fun i => voiceBuffer.samples.getD i 0 + (1 / 5 : ℚ) * musicBuffer.samples.getD i 0) }

/-- C9 (amended): the mixer renders offline into a buffer of length
max(voice length, music length) with the voice summed at unity gain and the
music attenuated by the fixed factor 0.2, but at the ambient AudioContext's
sample rate — not at the voice buffer's sample rate as the claim states. -/
theorem mixAudio_render_spec (v m : AudioBuf) (rate : Nat) :
    (mixAudio v m rate).samples.length = max v.samples.length m.samples.length ∧
    (mixAudio v m rate).sampleRate = rate ∧
    ∀ i, i < max v.samples.length m.samples.length →
      (mixAudio v m rate).samples.getD i 0 =
        v.samples.getD i 0 + (1 / 5 : ℚ) * m.samples.getD i 0 := by
  refine ⟨by simp [mixAudio], rfl, ?_⟩
  intro i hi
  simp [mixAudio, List.getD, List.getElem?_map, List.getElem?_range, hi]

theorem mixAudio_render_spec_witness :
    (mixAudio ⟨24000, [0]⟩ ⟨24000, [0, 0]⟩ 24000).samples.length = 2 ∧
    (mixAudio ⟨24000, [0]⟩ ⟨24000, [0, 0]⟩ 24000).sampleRate = 24000 ∧
    (mixAudio ⟨24000, [0]⟩ ⟨24000, [0, 0]⟩ 24000).samples.getD 0 0 = 0 := by
  have h := mixAudio_render_spec ⟨24000, [0]⟩ ⟨24000, [0, 0]⟩ 24000
  refine ⟨by simpa using h.1, h.2.1, ?_⟩
  have h0 := h.2.2 0 (by simp)
  simpa using h0

/-- C9 (counterexample): a voice buffer decoded from TTS PCM carries the
hard-coded 24 kHz rate, yet mixing under an ambient context rate of 48 kHz
produces a buffer whose sample rate is 48 kHz, so the mixer does not render
at the voice buffer's sample rate. -/
theorem mixAudio_sampleRate_counterexample :
    (mixAudio (pcmToAudioBuffer [0]) ⟨48000, [0, 0]⟩ 48000).sampleRate = 48000 ∧
    (pcmToAudioBuffer [0]).sampleRate = 24000 ∧ (48000 : Nat) ≠ 24000 :=
  ⟨rfl, rfl, by decide⟩

/-- Truncation toward zero on rationals. -/
def ratTrunc (q : ℚ) : Int := if 0 ≤ q then ⌊q⌋ else ⌈q⌉

/-- Modelled from the spec: the re-quantization step the spec attributes to
the WAV encoder — clamp the float sample to [-1, 1], scale by 32767 when
positive or 32768 when negative, and round toward zero. No such step exists
in the source; this definition exists only to compare the spec's words with
the code. -/
def specRequantize (x : ℚ) : Int :=
  ratTrunc (max (-1 : ℚ) (min 1 x) * (if 0 < x then (32767 : ℚ) else 32768))

/-- Modelled from the spec: the 16-bit value the claimed re-quantization
would write for a pipeline sample `s`, whose float form is `s / 32768` under
the normalization used throughout the code base. -/
def specEncodedSample (s : Int) : Int := specRequantize ((s : ℚ) / 32768)

/-- C2 (counterexample): for the sample value 1 the encoder writes the 16-bit
value 1 verbatim into the data section, while the claimed clamp-and-scale
re-quantization of its float form 1/32768 yields 0 — so the encoder performs
no such re-quantization. -/
theorem writeWavHeader_requantize_counterexample :
    bytesToInt16 ((writeWavHeader [1] 24000 1).drop 44) = some [1] ∧
    specEncodedSample 1 = 0 ∧ ((1 : Int) ≠ 0) := by
  refine ⟨by decide, ?_, by decide⟩
  unfold specEncodedSample specRequantize ratTrunc
  rw [show ((1 : Int) : ℚ) / 32768 = 1 / 32768 by norm_num]
  rw [min_eq_right (by norm_num : (1 : ℚ) / 32768 ≤ 1),
    max_eq_right (by norm_num : (-1 : ℚ) ≤ 1 / 32768),
    if_pos (by norm_num : (0 : ℚ) < 1 / 32768),
    if_pos (by positivity : (0 : ℚ) ≤ 1 / 32768 * 32767)]
  norm_num

/-- C2 (amended): the WAV encoder performs no float re-quantization: each
input sample, already a 16-bit integer, is written unchanged as a
little-endian 16-bit value into the data section beginning at byte 44, and
reading the data section back yields exactly the input samples. -/
theorem writeWavHeader_writes_samples_verbatim (samples : List Int) (sr nc : Nat)
    (h : ∀ s ∈ samples, -32768 ≤ s ∧ s ≤ 32767) :
    (writeWavHeader samples sr nc).drop 44 = samples.flatMap int16ToBytes ∧
    bytesToInt16 ((writeWavHeader samples sr nc).drop 44) = some samples := by
  refine ⟨writeWavHeader_drop44 samples sr nc, ?_⟩
  rw [writeWavHeader_drop44 samples sr nc]
  exact bytesToInt16_flatMap samples h

theorem writeWavHeader_writes_samples_verbatim_witness :
    (writeWavHeader [1, -2, 32767, -32768] 24000 1).drop 44 =
      [1, 0, 254, 255, 255, 127, 0, 128] ∧
    bytesToInt16 ((writeWavHeader [1, -2, 32767, -32768] 24000 1).drop 44) =
      some [1, -2, 32767, -32768] := by
  have h := writeWavHeader_writes_samples_verbatim [1, -2, 32767, -32768] 24000 1
    (by decide)
  exact ⟨by rw [h.1]; decide, h.2⟩

/-- C4: for every valid byte sequence that the 16-bit reinterpretation
accepts (even length, bytes in range), re-encoding the decoded samples
through the WAV encoder yields a data section equal to the original bytes,
so the sample values round-trip exactly. -/
theorem wav_decode_reencode_roundtrip (bytes : List Nat) (samples : List Int)
    (hb : ∀ b ∈ bytes, b < 256) (h : bytesToInt16 bytes = some samples) :
    bytesToInt16 ((writeWavHeader samples 24000 1).drop 44) = some samples ∧
    (writeWavHeader samples 24000 1).drop 44 = bytes := by
  have hflat := flatMap_of_bytesToInt16 bytes samples hb h
  rw [writeWavHeader_drop44 samples 24000 1, hflat]
  exact ⟨h, rfl⟩

theorem wav_decode_reencode_roundtrip_witness :
    bytesToInt16 ((writeWavHeader [1, -32768] 24000 1).drop 44) =
      some [1, -32768] ∧
    (writeWavHeader [1, -32768] 24000 1).drop 44 = [1, 0, 0, 128] :=
  wav_decode_reencode_roundtrip [1, 0, 0, 128] [1, -32768] (by decide) (by decide)

/-- C3 (amended): for every base64 input whose decoded byte length is odd,
the decode path raises a caller-visible RangeError from the Int16Array
reinterpretation — the source performs no explicit validation, but there is
no silent truncation. -/
theorem pcmDecodePath_odd_raises (b64 : String) (bytes : List Nat)
    (ha : atob b64 = some bytes) (hodd : bytes.length % 2 = 1) :
    pcmDecodePath b64 =
      .error ("RangeError: byte length of Int16Array should be a multiple of 2") := by
  unfold pcmDecodePath
  rw [ha]
  simp [bytesToInt16_odd bytes hodd]

theorem pcmDecodePath_odd_raises_witness :
    pcmDecodePath ("AA==") =
      .error ("RangeError: byte length of Int16Array should be a multiple of 2") :=
  pcmDecodePath_odd_raises ("AA==") [0] (by decide) (by decide)

/-- C3 (counterexample): the base64 input "AA==" decodes to a single byte,
and the decode path yields a RangeError rather than silently truncating to an
empty sample list, so the claimed silent truncation does not occur. -/
theorem pcmDecodePath_odd_counterexample :
    (atob ("AA==")).map List.length = some 1 ∧
    pcmDecodePath ("AA==") =
      .error ("RangeError: byte length of Int16Array should be a multiple of 2") := by
  exact ⟨by decide, rfl⟩
